import Mathlib

/-!
Verification of the Rao-Blackwellized particle filter base layer
(`pyparticleest/part_utils.py`), centred on the class `RBPFBase`:
its constructor, the dynamics resolvers `get_nonlin_pred_dynamics_int`,
`get_lin_pred_dynamics_int`, `get_meas_dynamics_int`, the conditional
linear-prediction hook `get_condlin_pred_dynamics`, and the per-step
orchestrator `update`.

Modelling conventions:
* Matrices are an arbitrary type parameter `Mat`; for claims that need a
  concrete zero matrix we instantiate `Mat` with integer row lists.
* Python `None` sentinels inside a dynamics triple become `Option.none`.
* A per-particle coefficient bundle is a `MatStack`: either a Python tuple
  of per-particle matrices (`MatStack.tup`, the `N*(x,)` idiom) or a numpy
  stacked 3-d array (`MatStack.arr`, the `numpy.repeat(x[newaxis],N,0)`
  idiom).  The two broadcast forms carry the same list of matrices but are
  kept distinct because the source deliberately uses the stacked form only
  for the linear-prediction covariance default.
* The instance attributes `Axi`, `fxi`, `Qxi` are assigned only by
  subclasses, never by `RBPFBase.__init__`; they are modelled as
  `Option Mat` where `none` means "attribute was never assigned", and
  reading an unassigned attribute is an `AttributeError`, modelled with
  `Except`.
* Overridable methods (`get_nonlin_pred_dynamics`, `get_lin_pred_dynamics`,
  `get_meas_dynamics` and the five abstract hooks used by `update`) are
  passed explicitly as records of functions, modelling dynamic dispatch.
* The time counter `t` is modelled as a rational (exact arithmetic).
-/

/-- A per-particle bundle of coefficient matrices: either a Python tuple of
matrices, one per particle (`tup`), or a numpy stacked array holding one
matrix slice per particle (`arr`). -/
inductive MatStack (Mat : Type) where
  | tup : List Mat → MatStack Mat
  | arr : List Mat → MatStack Mat
  deriving DecidableEq, Repr

/-- The underlying list of per-particle matrices of a bundle. -/
def MatStack.toList {Mat : Type} : MatStack Mat → List Mat
  | .tup l => l
  | .arr l => l

/-- Modelled from the spec: the Kalman collaborator (`kalman.KalmanSmoother`,
whose module is not part of the analysed sources) "holds the model-wide
default dynamics matrices `A_z, f_z, Q_z` (linear prediction), `C, h_z, R`
(measurement), settable at construction or via an explicit reconfiguration
call".  It is modelled as a record storing those six matrices. -/
structure KalmanSmoother (Mat : Type) where
  A : Mat
  C : Mat
  Q : Mat
  R : Mat
  f_k : Mat
  h_k : Mat
  deriving DecidableEq, Repr

/-- Modelled from the spec: the Kalman collaborator's explicit
reconfiguration call (`kalman.py` is not part of the analysed sources);
each argument that is present replaces the corresponding stored matrix,
an absent argument leaves it unchanged. -/
def KalmanSmoother.set_dynamics {Mat : Type} (kf : KalmanSmoother Mat)
    (Az C Qz R fz hz : Option Mat) : KalmanSmoother Mat :=
  { A := Az.getD kf.A, C := C.getD kf.C, Q := Qz.getD kf.Q,
    R := R.getD kf.R, f_k := fz.getD kf.f_k, h_k := hz.getD kf.h_k }

/-- The state owned by an `RBPFBase` instance: the exclusively owned Kalman
collaborator `kf`, the time counter `t`, and the nonlinear-dynamics default
attributes `Axi`, `fxi`, `Qxi`.  The latter three are `Option Mat` because
`RBPFBase.__init__` never assigns them: `none` models an attribute that was
never set (so that reading it raises `AttributeError`), `some` an attribute
assigned by a subclass. -/
structure RBPFBase (Mat : Type) where
  kf : KalmanSmoother Mat
  t : ℚ
  Axi : Option Mat
  fxi : Option Mat
  Qxi : Option Mat
  deriving DecidableEq, Repr

namespace RBPFBase

/-- `RBPFBase.__init__(self, Az, fz, Qz, C, hz, R, t0)`: builds the Kalman
collaborator from the six matrices and sets `self.t = t0`.  It assigns no
other attribute, so `Axi`, `fxi`, `Qxi` are left unassigned (`none`). -/
def init {Mat : Type} (Az fz Qz C hz R : Mat) (t0 : ℚ) : RBPFBase Mat :=
  { kf := { A := Az, C := C, Q := Qz, R := R, f_k := fz, h_k := hz },
    t := t0, Axi := none, fxi := none, Qxi := none }

/-- `RBPFBase.set_dynamics`: forwards to the Kalman collaborator's
reconfiguration call; `self.t` is untouched. -/
def set_dynamics {Mat : Type} (m : RBPFBase Mat)
    (Az C Qz R fz hz : Option Mat) : RBPFBase Mat :=
  { m with kf := m.kf.set_dynamics Az C Qz R fz hz }

end RBPFBase

/-- The three overridable dynamics hooks of a model.  Each may return, for
any entry of its triple, the sentinel `none` ("the matrix is identical for
all particles and the value stored in this class should be used instead")
or an explicit per-particle bundle.  The measurement hook additionally
returns the observation in the first component, as in the source. -/
structure DynHooks (P U Y Mat : Type) where
  get_nonlin_pred_dynamics :
      List P → U → Option (MatStack Mat) × Option (MatStack Mat) × Option (MatStack Mat)
  get_lin_pred_dynamics :
      List P → U → Option (MatStack Mat) × Option (MatStack Mat) × Option (MatStack Mat)
  get_meas_dynamics :
      List P → Y → Y × Option (MatStack Mat) × Option (MatStack Mat) × Option (MatStack Mat)

/-- The base-class default implementations of the three dynamics hooks:
every matrix entry is the sentinel, and the measurement hook passes the
observation through unchanged. -/
def defaultDynHooks {P U Y Mat : Type} : DynHooks P U Y Mat :=
  { get_nonlin_pred_dynamics := fun _ _ => (none, none, none),
    get_lin_pred_dynamics := fun _ _ => (none, none, none),
    get_meas_dynamics := fun _ y => (y, none, none, none) }

/-- Reading a possibly unassigned instance attribute: `none` raises
`AttributeError`, `some v` yields `v`. -/
def readAttr {Mat : Type} (a : Option Mat) : Except String Mat :=
  match a with
  | none => .error "AttributeError"
  | some v => .ok v

namespace RBPFBase

end RBPFBase

/-- One sentinel-substitution step of `get_nonlin_pred_dynamics_int`,
modelling one `if (X == None): X = N*(self.X,)` statement of the source:
a sentinel entry is replaced by the `N`-fold tuple of the corresponding
instance attribute (whose read may raise `AttributeError`), a present
entry is kept unchanged. -/
def resolveNL {Mat : Type} (att : Option Mat) (N : ℕ) :
    Option (MatStack Mat) → Except String (MatStack Mat)
  | none =>
      match readAttr att with
      | .error e => .error e
      | .ok a => .ok (MatStack.tup (List.replicate N a))
  | some v => .ok v

namespace RBPFBase

/-- `RBPFBase.get_nonlin_pred_dynamics_int`: calls the hook, then runs the
three sentinel-substitution statements in source order (`A_xi`, `f_xi`,
`Q_xi`), each against the corresponding instance attribute `self.Axi` /
`self.fxi` / `self.Qxi`; the first `AttributeError` aborts the call. -/
def get_nonlin_pred_dynamics_int {P U Y Mat : Type} (m : RBPFBase Mat)
    (h : DynHooks P U Y Mat) (particles : List P) (u : U) :
    Except String (MatStack Mat × MatStack Mat × MatStack Mat) :=
  match h.get_nonlin_pred_dynamics particles u with
  | (Axi0, fxi0, Qxi0) =>
    let N := particles.length
    match resolveNL m.Axi N Axi0 with
    | .error e => .error e
    | .ok Axi =>
      match resolveNL m.fxi N fxi0 with
      | .error e => .error e
      | .ok fxi =>
        match resolveNL m.Qxi N Qxi0 with
        | .error e => .error e
        | .ok Qxi => .ok (Axi, fxi, Qxi)

/-- `RBPFBase.get_condlin_pred_dynamics`: the base-class hook for the
conditional linear-prediction dynamics.  It returns the sentinel triple
unconditionally; the base class defines no `_int` resolved variant for
this query. -/
def get_condlin_pred_dynamics {U Xi P Mat : Type} (_m : RBPFBase Mat)
    (_u : U) (_xi_next : Xi) (_particles : List P) :
    Option (MatStack Mat) × Option (MatStack Mat) × Option (MatStack Mat) :=
  (none, none, none)

/-- `RBPFBase.get_lin_pred_dynamics_int`: calls the hook, and replaces a
sentinel `Az` / `fz` by the `N`-fold tuple of the collaborator's `A` /
`f_k`, and a sentinel `Qz` by the numpy-stacked array of `N` copies of the
collaborator's `Q`. -/
def get_lin_pred_dynamics_int {P U Y Mat : Type} (m : RBPFBase Mat)
    (h : DynHooks P U Y Mat) (particles : List P) (u : U) :
    MatStack Mat × MatStack Mat × MatStack Mat :=
  let N := particles.length
  let (Az0, fz0, Qz0) := h.get_lin_pred_dynamics particles u
  let Az := match Az0 with
    | none => MatStack.tup (List.replicate N m.kf.A)
    | some v => v
  let fz := match fz0 with
    | none => MatStack.tup (List.replicate N m.kf.f_k)
    | some v => v
  let Qz := match Qz0 with
    | none => MatStack.arr (List.replicate N m.kf.Q)
    | some v => v
  (Az, fz, Qz)

/-- `RBPFBase.get_meas_dynamics_int`: calls the hook, passes its returned
observation through as the first component, and replaces each sentinel
among `C`, `h`, `R` by the `N`-fold tuple of the collaborator's `C` /
`h_k` / `R`. -/
def get_meas_dynamics_int {P U Y Mat : Type} (m : RBPFBase Mat)
    (h : DynHooks P U Y Mat) (particles : List P) (y : Y) :
    Y × MatStack Mat × MatStack Mat × MatStack Mat :=
  let N := particles.length
  let (y2, Cz0, hz0, Rz0) := h.get_meas_dynamics particles y
  let Cz := match Cz0 with
    | none => MatStack.tup (List.replicate N m.kf.C)
    | some v => v
  let hz := match hz0 with
    | none => MatStack.tup (List.replicate N m.kf.h_k)
    | some v => v
  let Rz := match Rz0 with
    | none => MatStack.tup (List.replicate N m.kf.R)
    | some v => v
  (y2, Cz, hz, Rz)

end RBPFBase

/-- The five abstract per-step hooks consumed by `RBPFBase.update`,
implemented by concrete model subclasses.  `Pc` is the (opaque, mutable)
particle collection, `Xi` the propagated nonlinear substate bundle, `Z`
and `Pm` the linear means and covariances read back by `get_states`.
In-place mutation of the collection is modelled by returning the new
collection value. -/
structure UpdateHooks (Pc U Noise Xi Z Pm : Type) where
  calc_xi_next : Pc → Noise → U → Xi
  meas_xi_next : Pc → Xi → U → Pc
  cond_predict : Pc → Xi → U → Pc
  get_states : Pc → Xi × Z × Pm
  set_states : Pc → Xi → Z → Pm → Pc

namespace RBPFBase

/-- `RBPFBase.update(self, particles, u, noise)`: propagate the nonlinear
substate (`calc_xi_next`), condition the linear estimate on the new
`xi_{t+1}` (`meas_xi_next`), predict the linear estimate (`cond_predict`),
commit by reading `(xi, z, P)` back and writing `(xi_{t+1}, z, P)`, then
advance `self.t` by `1.0`.  Returns the mutated collection together with
the mutated instance. -/
def update {Pc U Noise Xi Z Pm Mat : Type} (m : RBPFBase Mat)
    (h : UpdateHooks Pc U Noise Xi Z Pm) (particles : Pc) (u : U)
    (noise : Noise) : Pc × RBPFBase Mat :=
  let xin := h.calc_xi_next particles noise u
  let p1 := h.meas_xi_next particles xin u
  let p2 := h.cond_predict p1 xin u
  match h.get_states p2 with
  | (_xil, zl, Pl) => (h.set_states p2 xin zl Pl, { m with t := m.t + 1 })

/-- `k` successive completed `update` cycles, with the input and noise of
cycle `i` drawn from the streams `us` and `ns`. -/
def updateN {Pc U Noise Xi Z Pm Mat : Type}
    (h : UpdateHooks Pc U Noise Xi Z Pm) (us : ℕ → U) (ns : ℕ → Noise) :
    ℕ → Pc × RBPFBase Mat → Pc × RBPFBase Mat
  | 0, s => s
  | k + 1, s =>
      let s' := updateN h us ns k s
      update s'.2 h s'.1 (us k) (ns k)

end RBPFBase

/-- An observable event recorded by the tracing model below: which hook ran
and which arguments it received (`xi` tokens and, for the commit, the `z`
and `P` values read back). -/
inductive TraceEv where
  | meas (xi : ℕ)
  | pred (xi : ℕ)
  | set (xi z P : ℕ)
  deriving DecidableEq, Repr

/-- A model whose hooks record their own invocation: the particle
collection is the event log, `calc_xi_next` returns a token derived from
the noise, the mutating hooks append an event carrying their `xi`
argument, and `get_states` reads back the current log length as both `z`
and `P`. -/
def traceHooks : UpdateHooks (List TraceEv) Unit ℕ ℕ ℕ ℕ :=
  { calc_xi_next := fun _ n _ => n + 1,
    meas_xi_next := fun log xi _ => log ++ [TraceEv.meas xi],
    cond_predict := fun log xi _ => log ++ [TraceEv.pred xi],
    get_states := fun log => (0, log.length, log.length),
    set_states := fun log xi z P => log ++ [TraceEv.set xi z P] }

/-- A concrete instance over integer "matrices" with six distinct
collaborator defaults and three distinct nonlinear defaults, used to
instantiate the resolver theorems on concrete inputs. -/
def wexModel : RBPFBase ℤ :=
  { kf := { A := 1, C := 2, Q := 3, R := 4, f_k := 5, h_k := 6 },
    t := 0, Axi := some 7, fxi := some 8, Qxi := some 9 }

/-- A second concrete instance sharing `wexModel`'s matrices but with a
different time counter, used to show the resolvers do not read `t`. -/
def wexModel2 : RBPFBase ℤ :=
  { kf := { A := 1, C := 2, Q := 3, R := 4, f_k := 5, h_k := 6 },
    t := 99, Axi := some 7, fxi := some 8, Qxi := some 9 }

/-- Integer matrices given as row lists, used to express a concrete
all-zero matrix override. -/
abbrev IMat : Type := List (List ℤ)

/-- The `rc × cc` all-zero matrix. -/
def zeroMat (rc cc : ℕ) : IMat := List.replicate rc (List.replicate cc (0 : ℤ))

/-- The tuple holding `n` copies of the `rc × cc` all-zero matrix. -/
def zeroStack (n rc cc : ℕ) : MatStack IMat :=
  MatStack.tup (List.replicate n (zeroMat rc cc))

/-- A concrete instance over `IMat` whose stored defaults are all nonzero,
so that a zero-matrix override is observably different from every
default. -/
def imatModel : RBPFBase IMat :=
  { kf := { A := [[1]], C := [[2]], Q := [[3]], R := [[4]], f_k := [[5]], h_k := [[6]] },
    t := 0, Axi := some [[7]], fxi := some [[8]], Qxi := some [[9]] }

/-- Hooks that override every matrix entry of every triple with a
one-particle all-zero bundle. -/
def zeroHooks : DynHooks Unit Unit Unit IMat :=
  { get_nonlin_pred_dynamics := fun ps _ =>
      (some (zeroStack ps.length 1 1), some (zeroStack ps.length 1 1),
        some (zeroStack ps.length 1 1)),
    get_lin_pred_dynamics := fun ps _ =>
      (some (zeroStack ps.length 1 1), some (zeroStack ps.length 1 1),
        some (zeroStack ps.length 1 1)),
    get_meas_dynamics := fun ps y =>
      (y, some (zeroStack ps.length 1 1), some (zeroStack ps.length 1 1),
        some (zeroStack ps.length 1 1)) }

/-- Hooks that override every matrix entry with a distinct explicit
per-particle bundle, used to exercise the pass-through property. -/
def ovHooks : DynHooks Unit Unit ℤ ℤ :=
  { get_nonlin_pred_dynamics := fun _ _ =>
      (some (MatStack.tup [10]), some (MatStack.tup [11]), some (MatStack.tup [12])),
    get_lin_pred_dynamics := fun _ _ =>
      (some (MatStack.tup [13]), some (MatStack.tup [14]), some (MatStack.arr [15])),
    get_meas_dynamics := fun _ y =>
      (y, some (MatStack.tup [16]), some (MatStack.tup [17]), some (MatStack.tup [18])) }

/-- C1: `update` propagates first (`calc_xi_next`), then conditions
(`meas_xi_next`) and predicts (`cond_predict`) with exactly the propagated
`xi_{t+1}`, then commits: it reads `(xi, z, P)` back, discards the old
`xi`, and writes `(xi_{t+1}, z, P)`.  Stated both as a dataflow
characterization for arbitrary hooks and as the exact event order produced
by the tracing model. -/
theorem update_step_order :
    (∀ (Pc U Noise Xi Z Pm Mat : Type) (m : RBPFBase Mat)
        (h : UpdateHooks Pc U Noise Xi Z Pm) (ps : Pc) (u : U) (n : Noise),
      RBPFBase.update m h ps u n =
        (h.set_states
            (h.cond_predict (h.meas_xi_next ps (h.calc_xi_next ps n u) u)
              (h.calc_xi_next ps n u) u)
            (h.calc_xi_next ps n u)
            (h.get_states
              (h.cond_predict (h.meas_xi_next ps (h.calc_xi_next ps n u) u)
                (h.calc_xi_next ps n u) u)).2.1
            (h.get_states
              (h.cond_predict (h.meas_xi_next ps (h.calc_xi_next ps n u) u)
                (h.calc_xi_next ps n u) u)).2.2,
          { m with t := m.t + 1 }))
    ∧ (∀ (Mat : Type) (m : RBPFBase Mat) (log : List TraceEv) (n : ℕ),
      RBPFBase.update m traceHooks log () n =
        (log ++ [TraceEv.meas (n + 1), TraceEv.pred (n + 1),
                 TraceEv.set (n + 1) (log.length + 2) (log.length + 2)],
          { m with t := m.t + 1 })) := by
  constructor
  · intro Pc U Noise Xi Z Pm Mat m h ps u n
    rfl
  · intro Mat m log n
    have hlen : ((log ++ [TraceEv.meas (n + 1)]) ++ [TraceEv.pred (n + 1)]).length
        = log.length + 2 := by
      simp
    simp [RBPFBase.update, traceHooks, hlen, List.append_assoc]

/-- C3: the time counter is exact: each completed `update` adds exactly
`1`, after `k` completed updates from epoch `t0` it equals `t0 + k`, and
the base class's reconfiguration call leaves it unchanged. -/
theorem time_counter_exact :
    (∀ (Pc U Noise Xi Z Pm Mat : Type) (h : UpdateHooks Pc U Noise Xi Z Pm)
        (m : RBPFBase Mat) (ps : Pc) (u : U) (n : Noise),
      ((RBPFBase.update m h ps u n).2).t = m.t + 1)
    ∧ (∀ (Pc U Noise Xi Z Pm Mat : Type) (h : UpdateHooks Pc U Noise Xi Z Pm)
        (us : ℕ → U) (ns : ℕ → Noise) (k : ℕ) (m : RBPFBase Mat) (ps : Pc),
      ((RBPFBase.updateN h us ns k (ps, m)).2).t = m.t + k)
    ∧ (∀ (Mat : Type) (m : RBPFBase Mat) (Az C Qz R fz hz : Option Mat),
      (m.set_dynamics Az C Qz R fz hz).t = m.t) := by
  refine ⟨?_, ?_, ?_⟩
  · intro Pc U Noise Xi Z Pm Mat h m ps u n
    rfl
  · intro Pc U Noise Xi Z Pm Mat h us ns k m ps
    have hstep : ∀ (m' : RBPFBase Mat) (ps' : Pc) (u : U) (n : Noise),
        ((RBPFBase.update m' h ps' u n).2).t = m'.t + 1 := by
      intro m' ps' u n
      rfl
    induction k with
    | zero => simp [RBPFBase.updateN]
    | succ k ih =>
        simp only [RBPFBase.updateN]
        rw [hstep, ih]
        push_cast
        ring
  · intro Mat m Az C Qz R fz hz
    rfl

/-- C6: the base-class conditional linear-prediction hook returns the
sentinel triple for every input; the base class resolves no default for
this query. -/
theorem condlin_hook_sentinel :
    ∀ (Mat U Xi P : Type) (m : RBPFBase Mat) (u : U) (xi : Xi) (ps : List P),
      m.get_condlin_pred_dynamics u xi ps =
        ((none : Option (MatStack Mat)), (none : Option (MatStack Mat)),
          (none : Option (MatStack Mat))) := by
  intros
  rfl

/-- C2: when the nonlinear-dynamics override hook returns the sentinel for
`A_xi`, `f_xi` or `Q_xi`, `get_nonlin_pred_dynamics_int` resolves that
entry as a sequence of length `N` every element of which is the base
instance's own stored default `Axi` / `fxi` / `Qxi`. -/
theorem nonlin_sentinel_broadcast
    (P U Y Mat : Type) (m : RBPFBase Mat) (h : DynHooks P U Y Mat)
    (ps : List P) (u : U) (a f q : Mat) (ao fo qo : Option (MatStack Mat))
    (hA : m.Axi = some a) (hf : m.fxi = some f) (hq : m.Qxi = some q)
    (hh : h.get_nonlin_pred_dynamics ps u = (ao, fo, qo)) :
    m.get_nonlin_pred_dynamics_int h ps u =
      Except.ok (ao.getD (MatStack.tup (List.replicate ps.length a)),
        fo.getD (MatStack.tup (List.replicate ps.length f)),
        qo.getD (MatStack.tup (List.replicate ps.length q)))
    ∧ (ao = none → ∃ l, ao.getD (MatStack.tup (List.replicate ps.length a))
        = MatStack.tup l ∧ l.length = ps.length ∧ ∀ x ∈ l, x = a)
    ∧ (fo = none → ∃ l, fo.getD (MatStack.tup (List.replicate ps.length f))
        = MatStack.tup l ∧ l.length = ps.length ∧ ∀ x ∈ l, x = f)
    ∧ (qo = none → ∃ l, qo.getD (MatStack.tup (List.replicate ps.length q))
        = MatStack.tup l ∧ l.length = ps.length ∧ ∀ x ∈ l, x = q) := by
  refine ⟨?_, ?_, ?_, ?_⟩
  · cases ao <;> cases fo <;> cases qo <;>
      (simp only [RBPFBase.get_nonlin_pred_dynamics_int, hh, hA, hf, hq,
        resolveNL, readAttr];
       rfl)
  · rintro rfl
    exact ⟨List.replicate ps.length a, rfl, List.length_replicate _ _,
      fun x hx => List.eq_of_mem_replicate hx⟩
  · rintro rfl
    exact ⟨List.replicate ps.length f, rfl, List.length_replicate _ _,
      fun x hx => List.eq_of_mem_replicate hx⟩
  · rintro rfl
    exact ⟨List.replicate ps.length q, rfl, List.length_replicate _ _,
      fun x hx => List.eq_of_mem_replicate hx⟩

/-- Witness for C2: on a two-particle collection with the base-class
default hook (all sentinels), the resolved nonlinear dynamics are the
stored defaults repeated twice. -/
theorem nonlin_sentinel_broadcast_witness :
    RBPFBase.get_nonlin_pred_dynamics_int wexModel
        (defaultDynHooks : DynHooks Unit Unit Unit ℤ) [(), ()] () =
      Except.ok (MatStack.tup [7, 7], MatStack.tup [8, 8], MatStack.tup [9, 9]) := by
  have hmain := (nonlin_sentinel_broadcast Unit Unit Unit ℤ wexModel
    defaultDynHooks [(), ()] () 7 8 9 none none none rfl rfl rfl rfl).1
  simpa using hmain

/-- C5: `get_lin_pred_dynamics_int` resolves a sentinel `Az` / `fz` as the
length-`N` tuple repeating the collaborator's `A` / `f_k`, but resolves a
sentinel `Qz` as the numpy-stacked array of `N` copies of the
collaborator's `Q`. -/
theorem lin_default_forms
    (P U Y Mat : Type) (m : RBPFBase Mat) (h : DynHooks P U Y Mat)
    (ps : List P) (u : U) (ao fo qo : Option (MatStack Mat))
    (hh : h.get_lin_pred_dynamics ps u = (ao, fo, qo)) :
    m.get_lin_pred_dynamics_int h ps u =
      (ao.getD (MatStack.tup (List.replicate ps.length m.kf.A)),
       fo.getD (MatStack.tup (List.replicate ps.length m.kf.f_k)),
       qo.getD (MatStack.arr (List.replicate ps.length m.kf.Q)))
    ∧ (ao = none → (m.get_lin_pred_dynamics_int h ps u).1
        = MatStack.tup (List.replicate ps.length m.kf.A))
    ∧ (fo = none → (m.get_lin_pred_dynamics_int h ps u).2.1
        = MatStack.tup (List.replicate ps.length m.kf.f_k))
    ∧ (qo = none → (m.get_lin_pred_dynamics_int h ps u).2.2
        = MatStack.arr (List.replicate ps.length m.kf.Q)) := by
  have hmain : m.get_lin_pred_dynamics_int h ps u =
      (ao.getD (MatStack.tup (List.replicate ps.length m.kf.A)),
       fo.getD (MatStack.tup (List.replicate ps.length m.kf.f_k)),
       qo.getD (MatStack.arr (List.replicate ps.length m.kf.Q))) := by
    cases ao <;> cases fo <;> cases qo <;>
      simp [RBPFBase.get_lin_pred_dynamics_int, hh]
  refine ⟨hmain, ?_, ?_, ?_⟩
  · rintro rfl
    simp [hmain]
  · rintro rfl
    simp [hmain]
  · rintro rfl
    simp [hmain]

/-- Witness for C5: on a one-particle collection with the base-class
default hook, `Az` and `fz` resolve as tuples and `Qz` as a stacked
array. -/
theorem lin_default_forms_witness :
    RBPFBase.get_lin_pred_dynamics_int wexModel
        (defaultDynHooks : DynHooks Unit Unit Unit ℤ) [()] () =
      (MatStack.tup [1], MatStack.tup [5], MatStack.arr [3]) := by
  have hmain := (lin_default_forms Unit Unit Unit ℤ wexModel
    defaultDynHooks [()] () none none none rfl).1
  simpa using hmain

/-- C8: `get_meas_dynamics_int` carries the observation through unchanged
as the first component, and resolves each sentinel among `C`, `h`, `R` as
the length-`N` tuple repeating the collaborator's `C` / `h_k` / `R`. -/
theorem meas_resolution_defaults
    (P U Y Mat : Type) (m : RBPFBase Mat) (h : DynHooks P U Y Mat)
    (ps : List P) (y : Y) (co ho ro : Option (MatStack Mat))
    (hh : h.get_meas_dynamics ps y = (y, co, ho, ro)) :
    (m.get_meas_dynamics_int h ps y).1 = y
    ∧ m.get_meas_dynamics_int h ps y =
        (y, co.getD (MatStack.tup (List.replicate ps.length m.kf.C)),
         ho.getD (MatStack.tup (List.replicate ps.length m.kf.h_k)),
         ro.getD (MatStack.tup (List.replicate ps.length m.kf.R)))
    ∧ (co = none → (m.get_meas_dynamics_int h ps y).2.1
        = MatStack.tup (List.replicate ps.length m.kf.C))
    ∧ (ho = none → (m.get_meas_dynamics_int h ps y).2.2.1
        = MatStack.tup (List.replicate ps.length m.kf.h_k))
    ∧ (ro = none → (m.get_meas_dynamics_int h ps y).2.2.2
        = MatStack.tup (List.replicate ps.length m.kf.R)) := by
  have hmain : m.get_meas_dynamics_int h ps y =
      (y, co.getD (MatStack.tup (List.replicate ps.length m.kf.C)),
       ho.getD (MatStack.tup (List.replicate ps.length m.kf.h_k)),
       ro.getD (MatStack.tup (List.replicate ps.length m.kf.R))) := by
    cases co <;> cases ho <;> cases ro <;>
      simp [RBPFBase.get_meas_dynamics_int, hh]
  refine ⟨by rw [hmain], hmain, ?_, ?_, ?_⟩
  · rintro rfl
    simp [hmain]
  · rintro rfl
    simp [hmain]
  · rintro rfl
    simp [hmain]

/-- Witness for C8: on a two-particle collection with the base-class
default hook, the observation `42` passes through and `C`, `h`, `R`
resolve as two-fold tuples of the collaborator defaults. -/
theorem meas_resolution_defaults_witness :
    RBPFBase.get_meas_dynamics_int wexModel
        (defaultDynHooks : DynHooks Unit Unit ℤ ℤ) [(), ()] 42 =
      (42, MatStack.tup [2, 2], MatStack.tup [6, 6], MatStack.tup [4, 4]) := by
  have hmain := (meas_resolution_defaults Unit Unit ℤ ℤ wexModel
    defaultDynHooks [(), ()] 42 none none none rfl).2.1
  simpa using hmain

/-- C4: a resolver entry is treated as unset only via the dedicated
sentinel; a present all-zero matrix bundle is a valid override, returned
as-is by all three resolvers with no default substitution. -/
theorem zero_matrix_is_valid_override
    (P U Y : Type) (m : RBPFBase IMat) (h : DynHooks P U Y IMat)
    (ps : List P) (u : U) (y : Y) (rc cc : ℕ) :
    (h.get_nonlin_pred_dynamics ps u =
        (some (zeroStack ps.length rc cc), some (zeroStack ps.length rc cc),
          some (zeroStack ps.length rc cc)) →
      m.get_nonlin_pred_dynamics_int h ps u =
        Except.ok (zeroStack ps.length rc cc, zeroStack ps.length rc cc,
          zeroStack ps.length rc cc))
    ∧ (h.get_lin_pred_dynamics ps u =
        (some (zeroStack ps.length rc cc), some (zeroStack ps.length rc cc),
          some (zeroStack ps.length rc cc)) →
      m.get_lin_pred_dynamics_int h ps u =
        (zeroStack ps.length rc cc, zeroStack ps.length rc cc,
          zeroStack ps.length rc cc))
    ∧ (h.get_meas_dynamics ps y =
        (y, some (zeroStack ps.length rc cc), some (zeroStack ps.length rc cc),
          some (zeroStack ps.length rc cc)) →
      m.get_meas_dynamics_int h ps y =
        (y, zeroStack ps.length rc cc, zeroStack ps.length rc cc,
          zeroStack ps.length rc cc)) := by
  refine ⟨?_, ?_, ?_⟩ <;> intro hh
  · simp only [RBPFBase.get_nonlin_pred_dynamics_int, hh]
    rfl
  · simp only [RBPFBase.get_lin_pred_dynamics_int, hh]
  · simp only [RBPFBase.get_meas_dynamics_int, hh]

/-- Witness for C4: with nonzero stored defaults, a one-particle all-zero
override flows through each resolver untouched. -/
theorem zero_matrix_is_valid_override_witness :
    RBPFBase.get_nonlin_pred_dynamics_int imatModel zeroHooks [()] () =
      Except.ok (zeroStack 1 1 1, zeroStack 1 1 1, zeroStack 1 1 1)
    ∧ RBPFBase.get_lin_pred_dynamics_int imatModel zeroHooks [()] () =
      (zeroStack 1 1 1, zeroStack 1 1 1, zeroStack 1 1 1)
    ∧ RBPFBase.get_meas_dynamics_int imatModel zeroHooks [()] () =
      ((), zeroStack 1 1 1, zeroStack 1 1 1, zeroStack 1 1 1) := by
  obtain ⟨h1, h2, h3⟩ :=
    zero_matrix_is_valid_override Unit Unit Unit imatModel zeroHooks [()] () () 1 1
  exact ⟨h1 rfl, h2 rfl, h3 rfl⟩

/-- C7: an explicit (non-sentinel) per-particle bundle returned by a hook
is passed through by the corresponding resolver unchanged, with no
broadcast applied to that entry. -/
theorem resolver_override_pass_through
    (P U Y Mat : Type) (m : RBPFBase Mat) (h : DynHooks P U Y Mat)
    (ps : List P) (u : U) (y : Y) :
    (∀ ao fo qo, h.get_nonlin_pred_dynamics ps u = (ao, fo, qo) →
      ∀ ra rf rq, m.get_nonlin_pred_dynamics_int h ps u = Except.ok (ra, rf, rq) →
        (∀ v, ao = some v → ra = v) ∧ (∀ v, fo = some v → rf = v)
        ∧ (∀ v, qo = some v → rq = v))
    ∧ (∀ ao fo qo, h.get_lin_pred_dynamics ps u = (ao, fo, qo) →
        (∀ v, ao = some v → (m.get_lin_pred_dynamics_int h ps u).1 = v)
        ∧ (∀ v, fo = some v → (m.get_lin_pred_dynamics_int h ps u).2.1 = v)
        ∧ (∀ v, qo = some v → (m.get_lin_pred_dynamics_int h ps u).2.2 = v))
    ∧ (∀ y2 co ho ro, h.get_meas_dynamics ps y = (y2, co, ho, ro) →
        (∀ v, co = some v → (m.get_meas_dynamics_int h ps y).2.1 = v)
        ∧ (∀ v, ho = some v → (m.get_meas_dynamics_int h ps y).2.2.1 = v)
        ∧ (∀ v, ro = some v → (m.get_meas_dynamics_int h ps y).2.2.2 = v)) := by
  refine ⟨?_, ?_, ?_⟩
  · intro ao fo qo hh ra rf rq hint
    rcases hra : resolveNL m.Axi ps.length ao with e | a1
    · simp [RBPFBase.get_nonlin_pred_dynamics_int, hh, hra] at hint
    · rcases hrf : resolveNL m.fxi ps.length fo with e | a2
      · simp [RBPFBase.get_nonlin_pred_dynamics_int, hh, hra, hrf] at hint
      · rcases hrq : resolveNL m.Qxi ps.length qo with e | a3
        · simp [RBPFBase.get_nonlin_pred_dynamics_int, hh, hra, hrf, hrq] at hint
        · simp only [RBPFBase.get_nonlin_pred_dynamics_int, hh, hra, hrf, hrq,
            Except.ok.injEq] at hint
          obtain ⟨h1, h2, h3⟩ : a1 = ra ∧ a2 = rf ∧ a3 = rq := by
            simpa using hint
          refine ⟨?_, ?_, ?_⟩ <;> rintro v rfl
          · rw [← h1]
            simpa [resolveNL, eq_comm] using hra
          · rw [← h2]
            simpa [resolveNL, eq_comm] using hrf
          · rw [← h3]
            simpa [resolveNL, eq_comm] using hrq
  · intro ao fo qo hh
    refine ⟨?_, ?_, ?_⟩ <;> rintro v rfl <;>
      simp [RBPFBase.get_lin_pred_dynamics_int, hh]
  · intro y2 co ho ro hh
    refine ⟨?_, ?_, ?_⟩ <;> rintro v rfl <;>
      simp [RBPFBase.get_meas_dynamics_int, hh]

/-- Witness for C7: distinct explicit overrides for every entry of every
triple come back from the resolvers exactly as supplied. -/
theorem resolver_override_pass_through_witness :
    (RBPFBase.get_lin_pred_dynamics_int wexModel ovHooks [()] ()).1 = MatStack.tup [13]
    ∧ (RBPFBase.get_lin_pred_dynamics_int wexModel ovHooks [()] ()).2.1 = MatStack.tup [14]
    ∧ (RBPFBase.get_lin_pred_dynamics_int wexModel ovHooks [()] ()).2.2 = MatStack.arr [15]
    ∧ (RBPFBase.get_meas_dynamics_int wexModel ovHooks [()] (42 : ℤ)).2.1 = MatStack.tup [16]
    ∧ (RBPFBase.get_meas_dynamics_int wexModel ovHooks [()] (42 : ℤ)).2.2.1 = MatStack.tup [17]
    ∧ (RBPFBase.get_meas_dynamics_int wexModel ovHooks [()] (42 : ℤ)).2.2.2 = MatStack.tup [18]
    ∧ MatStack.tup ([10] : List ℤ) = MatStack.tup [10] := by
  obtain ⟨hnl, hl, hm⟩ :=
    resolver_override_pass_through Unit Unit ℤ ℤ wexModel ovHooks [()] () 42
  obtain ⟨l1, l2, l3⟩ := hl _ _ _ rfl
  obtain ⟨m1, m2, m3⟩ := hm _ _ _ _ rfl
  obtain ⟨n1, _, _⟩ := hnl _ _ _ rfl
    (MatStack.tup [10]) (MatStack.tup [11]) (MatStack.tup [12]) rfl
  exact ⟨l1 _ rfl, l2 _ rfl, l3 _ rfl, m1 _ rfl, m2 _ rfl, m3 _ rfl, n1 _ rfl⟩

/-- C9: the constructor initializes only the collaborator and `t`, leaving
`Axi`, `fxi`, `Qxi` unassigned, so resolving nonlinear dynamics with any
sentinel entry on a freshly constructed instance fails with an
attribute-lookup error. -/
theorem init_nonlin_defaults_unset
    (P U Y Mat : Type) (Az fz Qz C0 hz R0 : Mat) (t0 : ℚ)
    (h : DynHooks P U Y Mat) (ps : List P) (u : U)
    (ao fo qo : Option (MatStack Mat))
    (hh : h.get_nonlin_pred_dynamics ps u = (ao, fo, qo))
    (hs : ao = none ∨ fo = none ∨ qo = none) :
    (RBPFBase.init Az fz Qz C0 hz R0 t0).Axi = none
    ∧ (RBPFBase.init Az fz Qz C0 hz R0 t0).fxi = none
    ∧ (RBPFBase.init Az fz Qz C0 hz R0 t0).Qxi = none
    ∧ (RBPFBase.init Az fz Qz C0 hz R0 t0).t = t0
    ∧ (RBPFBase.init Az fz Qz C0 hz R0 t0).kf =
        { A := Az, C := C0, Q := Qz, R := R0, f_k := fz, h_k := hz }
    ∧ (RBPFBase.init Az fz Qz C0 hz R0 t0).get_nonlin_pred_dynamics_int h ps u
        = Except.error "AttributeError" := by
  refine ⟨rfl, rfl, rfl, rfl, rfl, ?_⟩
  rcases ao with _ | av
  · simp only [RBPFBase.get_nonlin_pred_dynamics_int, hh]
    rfl
  · rcases fo with _ | fv
    · simp only [RBPFBase.get_nonlin_pred_dynamics_int, hh]
      rfl
    · rcases qo with _ | qv
      · simp only [RBPFBase.get_nonlin_pred_dynamics_int, hh]
        rfl
      · simp at hs

/-- Witness for C9: a freshly constructed instance with the base-class
default hook (all sentinels) fails to resolve nonlinear dynamics. -/
theorem init_nonlin_defaults_unset_witness :
    RBPFBase.get_nonlin_pred_dynamics_int (RBPFBase.init (1 : ℤ) 2 3 4 5 6 0)
        (defaultDynHooks : DynHooks Unit Unit Unit ℤ) [()] () =
      Except.error "AttributeError" := by
  exact (init_nonlin_defaults_unset Unit Unit Unit ℤ 1 2 3 4 5 6 0 defaultDynHooks
    [()] () none none none rfl (Or.inl rfl)).2.2.2.2.2

/-- C10: the resolvers read only the length of the particle collection,
the hook output, and the relevant stored default matrices: two calls with
equal-length collections, equal hook outputs and equal relevant defaults
agree, whatever the particles themselves, the time counter, or the other
stored matrices are.  (Non-mutation of the collection and of `t` is
inherent: each resolver is a pure function of its inputs.) -/
theorem resolvers_read_footprint
    (P1 P2 U1 U2 Y Mat : Type)
    (m1 m2 : RBPFBase Mat) (h1 : DynHooks P1 U1 Y Mat) (h2 : DynHooks P2 U2 Y Mat)
    (ps1 : List P1) (ps2 : List P2) (u1 : U1) (u2 : U2) (y1 y2 : Y)
    (hlen : ps1.length = ps2.length) :
    (h1.get_nonlin_pred_dynamics ps1 u1 = h2.get_nonlin_pred_dynamics ps2 u2 →
      m1.Axi = m2.Axi → m1.fxi = m2.fxi → m1.Qxi = m2.Qxi →
      m1.get_nonlin_pred_dynamics_int h1 ps1 u1
        = m2.get_nonlin_pred_dynamics_int h2 ps2 u2)
    ∧ (h1.get_lin_pred_dynamics ps1 u1 = h2.get_lin_pred_dynamics ps2 u2 →
      m1.kf.A = m2.kf.A → m1.kf.f_k = m2.kf.f_k → m1.kf.Q = m2.kf.Q →
      m1.get_lin_pred_dynamics_int h1 ps1 u1
        = m2.get_lin_pred_dynamics_int h2 ps2 u2)
    ∧ (h1.get_meas_dynamics ps1 y1 = h2.get_meas_dynamics ps2 y2 →
      m1.kf.C = m2.kf.C → m1.kf.h_k = m2.kf.h_k → m1.kf.R = m2.kf.R →
      m1.get_meas_dynamics_int h1 ps1 y1
        = m2.get_meas_dynamics_int h2 ps2 y2) := by
  refine ⟨?_, ?_, ?_⟩
  · intro he hA hf hq
    simp only [RBPFBase.get_nonlin_pred_dynamics_int, he, hlen, hA, hf, hq]
  · intro he hA hf hq
    simp only [RBPFBase.get_lin_pred_dynamics_int, he, hlen, hA, hf, hq]
  · intro he hC hhk hR
    simp only [RBPFBase.get_meas_dynamics_int, he, hlen, hC, hhk, hR]

/-- Witness for C10: two instances differing in `t`, over collections of
different particle types but equal length, resolve identically. -/
theorem resolvers_read_footprint_witness :
    RBPFBase.get_nonlin_pred_dynamics_int wexModel
        (defaultDynHooks : DynHooks ℤ Unit ℤ ℤ) [37] ()
      = RBPFBase.get_nonlin_pred_dynamics_int wexModel2
        (defaultDynHooks : DynHooks Unit Unit ℤ ℤ) [()] ()
    ∧ RBPFBase.get_lin_pred_dynamics_int wexModel
        (defaultDynHooks : DynHooks ℤ Unit ℤ ℤ) [37] ()
      = RBPFBase.get_lin_pred_dynamics_int wexModel2
        (defaultDynHooks : DynHooks Unit Unit ℤ ℤ) [()] ()
    ∧ RBPFBase.get_meas_dynamics_int wexModel
        (defaultDynHooks : DynHooks ℤ Unit ℤ ℤ) [37] (1 : ℤ)
      = RBPFBase.get_meas_dynamics_int wexModel2
        (defaultDynHooks : DynHooks Unit Unit ℤ ℤ) [()] (1 : ℤ) := by
  obtain ⟨hn, hl, hm⟩ := resolvers_read_footprint ℤ Unit Unit Unit ℤ ℤ
    wexModel wexModel2 defaultDynHooks defaultDynHooks [37] [()] () () 1 1 rfl
  exact ⟨hn rfl rfl rfl rfl, hl rfl rfl rfl rfl, hm rfl rfl rfl rfl⟩
